import Mathlib

/-
Verification of tf_yarn/mlflow.py: a defensive adapter around the mlflow
experiment-tracking backend.  The module is embedded shallowly: the
process-wide state (the cached feature-gate flag, the log output, the
trace of backend calls, the set of file writes and the number of live
temporary directories) is threaded explicitly through every function,
and the outcome of each external backend or filesystem call is an
explicit `Except` parameter describing whether that call succeeds or
raises, and with which exception class.
-/

namespace TfYarnMlflow

/-- Exception classes relevant to the module.  The decorators in the
source catch exactly the tuple `(ConnectionError, exceptions.MlflowException)`;
`other` stands for any Python exception outside those two classes
(for example `OSError` from the filesystem or `RuntimeError`). -/
inductive Exc where
  | connectionError
  | mlflowException
  | other
deriving DecidableEq, Repr

/-- Logging levels used by the module (`logger.info`, `logger.warning`,
`logger.exception`). -/
inductive LogLevel where
  | info
  | warning
  | exception
deriving DecidableEq, Repr

/-- Values forwarded verbatim to the backend (`Any` in the source);
represented opaquely as strings since the module never inspects them. -/
abbrev Val := String

/-- A call made to the mlflow backend client, with the arguments the
module passes.  One constructor per backend entry point the module uses. -/
inductive Call where
  | set_tag (key : String) (value : Val)
  | set_tags (tags : List (String × Val))
  | log_param (key : String) (value : Val)
  | log_params (params : List (String × Val))
  | log_metric (key : String) (value : Val) (step : Option Int)
  | log_metrics (metrics : List (String × Val)) (step : Option Int)
  | log_artifact (local_path : String) (artifact_path : Option String)
  | log_artifacts (local_dir : String) (artifact_path : Option String)
  | active_run
  | start_run
  | get_tracking_uri
deriving DecidableEq, Repr

/-- The ambient configuration `_detect_mlflow` probes: the value of the
environment variable `TF_YARN_USE_MLFLOW` (`os.getenv` with default `""`,
so an unset variable reads as the empty string), whether the mlflow
client library is importable, whether `mlflow.tracking.utils.is_tracking_uri_set()`
holds, and whether pyarrow is importable. -/
structure Env where
  tf_yarn_use_mlflow : String
  mlflowInstalled : Bool
  trackingUriSet : Bool
  pyarrowInstalled : Bool
deriving DecidableEq, Repr

/-- The observable process state threaded through the module: the cached
module-global `_use_mlflow` flag, the trace of backend calls performed,
the log records emitted, the files written (path, content), and the
number of temporary directories currently existing on disk. -/
structure World where
  cache : Option Bool
  trace : List Call
  logs : List (LogLevel × String)
  fileWrites : List (String × String)
  liveTempDirs : Nat
deriving DecidableEq, Repr

/-- A stateful computation of the module: takes the world, returns either
a value or a propagating Python exception, plus the new world. -/
abbrev M (α : Type) := World → Except Exc α × World

/-- Embeds `_detect_mlflow`: environment-variable override first, then
importability of mlflow (logged via `logger.exception`), then the
tracking-uri check (logged via `logger.warning`).  Returns the decision
together with the log records emitted. -/
def _detect_mlflow (env : Env) : Bool × List (LogLevel × String) :=
  if env.tf_yarn_use_mlflow = "False" then (false, [])
  else if !env.mlflowInstalled then
    (false, [(.exception, "mlflow is not installed")])
  else if !env.trackingUriSet then
    (false, [(.warning, "mlflow tracking uri is not set. will not use mlflow")])
  else (true, [])

/-- Embeds `use_mlflow`: returns the cached global `_use_mlflow` if set,
otherwise runs `_detect_mlflow` once and caches the result. -/
def use_mlflow (env : Env) (w : World) : Bool × World :=
  match w.cache with
  | some b => (b, w)
  | none =>
    let d := _detect_mlflow env
    (d.1, { w with cache := some d.1, logs := w.logs ++ d.2 })

/-- Embeds `_is_pyarrow_installed`: the try-import probe for pyarrow. -/
def _is_pyarrow_installed (env : Env) : Bool :=
  env.pyarrowInstalled

/-- Record of `logger.exception("mlflow connection error")`, emitted by
both decorators when they catch an exception. -/
def logExc (w : World) : World :=
  { w with logs := w.logs ++ [(.exception, "mlflow connection error")] }

/-- Embeds the `safe_mlflow` decorator: runs the wrapped computation and
catches exactly `ConnectionError` and `exceptions.MlflowException`,
logging at exception level and returning Python `None` (here `none`);
any other exception class propagates. -/
def safe_mlflow {α : Type} (f : M α) : M (Option α) := fun w =>
  match f w with
  | (.ok a, w2) => (.ok (some a), w2)
  | (.error .connectionError, w2) => (.ok none, logExc w2)
  | (.error .mlflowException, w2) => (.ok none, logExc w2)
  | (.error .other, w2) => (.error .other, w2)

/-- Embeds the `optional_mlflow` decorator: consults `use_mlflow()` first;
if tracking is disabled the call is a no-op returning `None`; if enabled
it runs the wrapped computation under the same try/except as `safe_mlflow`. -/
def optional_mlflow {α : Type} (env : Env) (f : M α) : M (Option α) := fun w =>
  let p := use_mlflow env w
  if p.1 then
    match f p.2 with
    | (.ok a, w2) => (.ok (some a), w2)
    | (.error .connectionError, w2) => (.ok none, logExc w2)
    | (.error .mlflowException, w2) => (.ok none, logExc w2)
    | (.error .other, w2) => (.error .other, w2)
  else (.ok none, p.2)

/-- A primitive backend-client call: appends the call to the trace and
produces the outcome `beh` prescribed for it by the environment. -/
def mlflowCall {α : Type} (c : Call) (beh : Except Exc α) : M α := fun w =>
  (beh, { w with trace := w.trace ++ [c] })

/-- Embeds `set_tag`: `optional_mlflow`-wrapped forwarding of
`mlflow.set_tag(key, value)`. -/
def set_tag (env : Env) (beh : Except Exc Unit) (key : String) (value : Val) :
    M (Option Unit) :=
  optional_mlflow env (mlflowCall (.set_tag key value) beh)

/-- Embeds `set_tags`: `optional_mlflow`-wrapped forwarding of
`mlflow.set_tags(tags)`. -/
def set_tags (env : Env) (beh : Except Exc Unit) (tags : List (String × Val)) :
    M (Option Unit) :=
  optional_mlflow env (mlflowCall (.set_tags tags) beh)

/-- Embeds `log_param`: `optional_mlflow`-wrapped forwarding of
`mlflow.log_param(key, value)`. -/
def log_param (env : Env) (beh : Except Exc Unit) (key : String) (value : Val) :
    M (Option Unit) :=
  optional_mlflow env (mlflowCall (.log_param key value) beh)

/-- Embeds `log_params`: `optional_mlflow`-wrapped forwarding of
`mlflow.log_params(params)`. -/
def log_params (env : Env) (beh : Except Exc Unit) (params : List (String × Val)) :
    M (Option Unit) :=
  optional_mlflow env (mlflowCall (.log_params params) beh)

/-- Embeds `log_metric`: `optional_mlflow`-wrapped forwarding of
`mlflow.log_metric(key, value, step)` with `step` defaulting to `None`. -/
def log_metric (env : Env) (beh : Except Exc Unit) (key : String) (value : Val)
    (step : Option Int) : M (Option Unit) :=
  optional_mlflow env (mlflowCall (.log_metric key value step) beh)

/-- Embeds `log_metrics`: `optional_mlflow`-wrapped forwarding of
`mlflow.log_metrics(metrics, step)`. -/
def log_metrics (env : Env) (beh : Except Exc Unit) (metrics : List (String × Val))
    (step : Option Int) : M (Option Unit) :=
  optional_mlflow env (mlflowCall (.log_metrics metrics step) beh)

/-- Embeds `log_artifact`: `optional_mlflow`-wrapped forwarding of
`mlflow.log_artifact(local_path, artifact_path)`. -/
def log_artifact (env : Env) (beh : Except Exc Unit) (local_path : String)
    (artifact_path : Option String) : M (Option Unit) :=
  optional_mlflow env (mlflowCall (.log_artifact local_path artifact_path) beh)

/-- Embeds `log_artifacts`: `optional_mlflow`-wrapped forwarding of
`mlflow.log_artifacts(local_dir, artifact_path)`. -/
def log_artifacts (env : Env) (beh : Except Exc Unit) (local_dir : String)
    (artifact_path : Option String) : M (Option Unit) :=
  optional_mlflow env (mlflowCall (.log_artifacts local_dir artifact_path) beh)

/-- Outcomes of the two run-lifecycle backend calls `active_run_id` makes:
`mlflow.active_run()` (a run object carrying a run id, or Python `None`)
and `mlflow.start_run()` (a fresh run whose id is returned). -/
structure RunBackend where
  active_run : Except Exc (Option String)
  start_run : Except Exc String
deriving Repr

/-- Embeds the body of `active_run_id` (before the `safe_mlflow` wrapper):
if the gate is open, fetch the active run, starting a new one with a
warning when there is none, and return its run id; otherwise return `""`. -/
def active_run_id_body (env : Env) (rb : RunBackend) : M String := fun w =>
  let p := use_mlflow env w
  if p.1 then
    match mlflowCall .active_run rb.active_run p.2 with
    | (.error e, w2) => (.error e, w2)
    | (.ok (some rid), w2) => (.ok rid, w2)
    | (.ok none, w2) =>
      let w3 := { w2 with logs := w2.logs ++
        [(.warning, "there is no active mlflow run. starting a new run ..")] }
      match mlflowCall .start_run rb.start_run w3 with
      | (.error e, w4) => (.error e, w4)
      | (.ok rid, w4) => (.ok rid, w4)
  else (.ok "", p.2)

/-- Embeds `active_run_id`: the body wrapped with `safe_mlflow`. -/
def active_run_id (env : Env) (rb : RunBackend) : M (Option String) :=
  safe_mlflow (active_run_id_body env rb)

/-- Embeds `get_tracking_uri`: returns `mlflow.get_tracking_uri()` when the
gate is open, else `""`.  Not wrapped by either decorator, so an
exception from the backend call propagates. -/
def get_tracking_uri (env : Env) (beh : Except Exc String) : M String := fun w =>
  let p := use_mlflow env w
  if p.1 then mlflowCall .get_tracking_uri beh p.2
  else (.ok "", p.2)

/-- Replacement of every occurrence of the character `old` by `new`;
Python's `str.replace` with a one-character pattern acts per character. -/
def replaceChar (old new : Char) (s : List Char) : List Char :=
  s.map (fun c => if c = old then new else c)

/-- Embeds `format_key`: falsy input (Python `None` or `""`) yields `""`;
otherwise `key.replace(":", "_").replace("/", "_")`.  Strings are taken
as their character lists, `None` as `none`. -/
def format_key (key : Option (List Char)) : List Char :=
  match key with
  | none => []
  | some k => if k = [] then [] else replaceChar '/' '_' (replaceChar ':' '_' k)

/-- Embeds `with tempfile.TemporaryDirectory() as tempdir:` — the context
manager creates a directory on entry and removes it on every exit path,
including exceptional exit (CPython's `with` runs `__exit__` even when the
body raises).  The directory's generated name is modelled as `"tmpdir"`. -/
def withTempDir {α : Type} (body : String → M α) : M α := fun w =>
  let w1 := { w with liveTempDirs := w.liveTempDirs + 1 }
  match body "tmpdir" w1 with
  | (r, w2) => (r, { w2 with liveTempDirs := w2.liveTempDirs - 1 })

/-- Embeds `open(path, 'w') as f: f.write(content)` — the write either
records the file on disk or raises the filesystem exception `beh`. -/
def writeFile (path content : String) (beh : Except Exc Unit) : M Unit := fun w =>
  match beh with
  | .ok _ => (.ok (), { w with fileWrites := w.fileWrites ++ [(path, content)] })
  | .error e => (.error e, w)

/-- Embeds the body of `save_text_to_mlflow` (before the `safe_mlflow`
wrapper): early return when the gate is closed; warning and early return
when pyarrow is absent; otherwise an info log, then inside a temporary
directory a file write of `content` under `filename` followed by
`mlflow.log_artifact(path)`.  `writeBeh` is the filesystem outcome of the
write, `upBeh` the backend outcome of the upload. -/
def save_text_to_mlflow_body (env : Env) (writeBeh upBeh : Except Exc Unit)
    (content filename : String) : M Unit := fun w =>
  let p := use_mlflow env w
  if !p.1 then (.ok (), p.2)
  else if !(_is_pyarrow_installed env) then
    (.ok (), { p.2 with logs := p.2.logs ++
      [(.warning, "Pyarrow is not installed. " ++ filename ++
        " artifact won\x27t be stored on HDFS")] })
  else
    let w2 := { p.2 with logs := p.2.logs ++
      [(.info, "save file " ++ filename ++ " to mlflow")] }
    withTempDir (fun tempdir => fun w3 =>
      let path := tempdir ++ "/" ++ filename
      match writeFile path content writeBeh w3 with
      | (.error e, w4) => (.error e, w4)
      | (.ok _, w4) => mlflowCall (.log_artifact path none) upBeh w4) w2

/-- Embeds `save_text_to_mlflow`: the body wrapped with `safe_mlflow`. -/
def save_text_to_mlflow (env : Env) (writeBeh upBeh : Except Exc Unit)
    (content filename : String) : M (Option Unit) :=
  safe_mlflow (save_text_to_mlflow_body env writeBeh upBeh content filename)

/-- Concrete environment: variable unset, mlflow importable, tracking uri
set, pyarrow present — detection enables tracking. -/
def envAll : Env := ⟨"", true, true, true⟩

/-- Concrete environment: variable unset, everything configured except
pyarrow, which is absent. -/
def envNoArrow : Env := ⟨"", true, true, false⟩

/-- Concrete environment: variable set to the literal `"False"` and
pyarrow absent. -/
def envOff : Env := ⟨"False", true, true, false⟩

/-- Fresh world: flag not yet computed, nothing traced, logged or written. -/
def w0 : World := ⟨none, [], [], [], 0⟩

/-- World whose cached gate flag reports tracking enabled. -/
def w0t : World := ⟨some true, [], [], [], 0⟩

/-- World whose cached gate flag reports tracking disabled. -/
def w0f : World := ⟨some false, [], [], [], 0⟩

/-- Claim C4: if TF_YARN_USE_MLFLOW is set to the literal string "False"
then use_mlflow() returns false regardless of whether the backend library
is importable or a tracking endpoint is configured; any other value
(including unset, which os.getenv reads as "") defers to auto-detection,
namely whether mlflow is importable and the tracking uri is set. -/
theorem c4_env_override (env : Env) (w : World) (h : w.cache = none) :
    (env.tf_yarn_use_mlflow = "False" → (use_mlflow env w).1 = false) ∧
    (env.tf_yarn_use_mlflow ≠ "False" →
      (use_mlflow env w).1 = (env.mlflowInstalled && env.trackingUriSet)) := by
  constructor
  · intro hf
    simp [use_mlflow, h, _detect_mlflow, hf]
  · intro hf
    simp only [use_mlflow, h, _detect_mlflow, hf, if_false]
    cases env.mlflowInstalled <;> cases env.trackingUriSet <;> simp

/-- Witness for C4 at concrete inputs: with the variable "False",
detection yields false even though mlflow and the uri are configured;
with the variable unset and everything configured, it yields true. -/
theorem c4_witness :
    (use_mlflow envOff w0).1 = false ∧ (use_mlflow envAll w0).1 = true := by
  constructor
  · exact (c4_env_override envOff w0 rfl).1 rfl
  · have h := (c4_env_override envAll w0 rfl).2 (by decide)
    simpa using h

/-- Claim C5: the gate flag is computed at most once per process: once a
call of use_mlflow has returned b, every subsequent call returns the same
b and leaves the world unchanged, even under a different environment
(variable, installed libraries or backend configuration changed). -/
theorem c5_cached_forever (env env2 : Env) (w w2 : World) (b : Bool)
    (h : use_mlflow env w = (b, w2)) :
    use_mlflow env2 w2 = (b, w2) := by
  have hc : w2.cache = some b := by
    cases hw : w.cache with
    | some c =>
      simp only [use_mlflow, hw, Prod.mk.injEq] at h
      rcases h with ⟨h1, h2⟩
      subst h1; subst h2
      exact hw
    | none =>
      simp only [use_mlflow, hw, Prod.mk.injEq] at h
      rcases h with ⟨h1, h2⟩
      subst h1; subst h2
      rfl
  simp [use_mlflow, hc]

/-- Witness for C5 at a concrete input: after a first call under envAll
has enabled tracking, a later call under envOff (variable now "False")
still returns true with the world unchanged. -/
theorem c5_witness : use_mlflow envOff w0t = (true, w0t) :=
  c5_cached_forever envAll envOff w0 w0t true (by decide)

/-- Claim C6: format_key maps every ':' and every '/' to '_' keeping all
other characters unchanged in order (so it is pure and deterministic, being
a function of its argument alone), and returns "" on falsy input, that is
on None and on the empty string. -/
theorem c6_format_key_spec :
    (∀ k : List Char, format_key (some k) =
      k.map (fun c => if c = ':' ∨ c = '/' then '_' else c)) ∧
    format_key none = [] ∧ format_key (some []) = [] := by
  refine ⟨?_, rfl, rfl⟩
  intro k
  have h : ∀ l : List Char,
      replaceChar '/' '_' (replaceChar ':' '_' l) =
        l.map (fun c => if c = ':' ∨ c = '/' then '_' else c) := by
    intro l
    simp only [replaceChar, List.map_map]
    apply List.map_congr_left
    intro c _
    by_cases hc : c = ':' <;> by_cases hd : c = '/' <;>
      simp [hc, hd, Function.comp]
  cases k with
  | nil => rfl
  | cons c t =>
    simpa only [format_key, if_neg (List.cons_ne_nil c t)] using h (c :: t)

/-- An outcome does not carry one of the two exception classes the
decorators catch: the call did not propagate ConnectionError or
MlflowException to the caller. -/
def noCaughtErr {α : Type} (r : Except Exc α) : Prop :=
  r ≠ .error .connectionError ∧ r ≠ .error .mlflowException

/-- Counterexample to Claim C1 as stated: get_tracking_uri is a public
function of the module not wrapped by either decorator, so with tracking
enabled a ConnectionError raised by the backend call propagates to the
caller instead of being turned into a sentinel. -/
theorem c1_counterexample :
    (get_tracking_uri envAll (.error .connectionError) w0t).1 =
      .error .connectionError := rfl

/-- Claim C1 (amended): every public function wrapped by safe_mlflow or
optional_mlflow — the eight forwarders, active_run_id and
save_text_to_mlflow — never propagates ConnectionError or MlflowException
to the caller, whatever the backend or filesystem outcomes; the unwrapped
get_tracking_uri, and exception classes outside those two, can propagate. -/
theorem c1_wrapped_no_caught_propagation (env : Env)
    (beh beh2 : Except Exc Unit) (rb : RunBackend) (w : World)
    (key : String) (value : Val) (kv : List (String × Val)) (step : Option Int)
    (path dir content filename : String) (apath : Option String) :
    noCaughtErr (set_tag env beh key value w).1 ∧
    noCaughtErr (set_tags env beh kv w).1 ∧
    noCaughtErr (log_param env beh key value w).1 ∧
    noCaughtErr (log_params env beh kv w).1 ∧
    noCaughtErr (log_metric env beh key value step w).1 ∧
    noCaughtErr (log_metrics env beh kv step w).1 ∧
    noCaughtErr (log_artifact env beh path apath w).1 ∧
    noCaughtErr (log_artifacts env beh dir apath w).1 ∧
    noCaughtErr (active_run_id env rb w).1 ∧
    noCaughtErr (save_text_to_mlflow env beh beh2 content filename w).1 := by
  have hsafe : ∀ {α : Type} (f : M α) (w1 : World),
      noCaughtErr (safe_mlflow f w1).1 := by
    intro α f w1
    unfold safe_mlflow noCaughtErr
    rcases hf : f w1 with ⟨r, w2⟩
    rcases r with e | a
    · cases e <;> simp
    · simp
  have hopt : ∀ {α : Type} (f : M α) (w1 : World),
      noCaughtErr (optional_mlflow env f w1).1 := by
    intro α f w1
    unfold optional_mlflow noCaughtErr
    rcases hb : (use_mlflow env w1).1 with _ | _
    · simp [hb]
    · simp only [hb, if_true]
      rcases hf : f (use_mlflow env w1).2 with ⟨r, w2⟩
      rcases r with e | a
      · cases e <;> simp
      · simp
  exact ⟨hopt _ _, hopt _ _, hopt _ _, hopt _ _, hopt _ _, hopt _ _,
    hopt _ _, hopt _ _, hsafe _ _, hsafe _ _⟩

/-- Claim C2: for a function wrapped by safe_mlflow or by optional_mlflow,
if tracking is enabled and the underlying call raises ConnectionError or
MlflowException, the wrapped call returns None, the error is logged at
exception level ("mlflow connection error"), and nothing is re-raised. -/
theorem c2_wrapped_errors_swallowed {α : Type} (f : M α) (env : Env)
    (w w1 wf : World) (e : Exc)
    (henabled : use_mlflow env w = (true, w1))
    (he : e = .connectionError ∨ e = .mlflowException) :
    (f w = (.error e, wf) → safe_mlflow f w = (.ok none, logExc wf)) ∧
    (f w1 = (.error e, wf) → optional_mlflow env f w = (.ok none, logExc wf)) := by
  constructor
  · intro hf
    rcases he with h | h <;> subst h <;> simp [safe_mlflow, hf]
  · intro hf
    rcases he with h | h <;> subst h <;>
      simp [optional_mlflow, henabled, hf]

/-- Witness for C2 at a concrete input: a call raising ConnectionError
under either wrapper, with tracking enabled, yields None plus the
exception-level log record. -/
theorem c2_witness :
    safe_mlflow (fun w => ((Except.error Exc.connectionError : Except Exc Unit), w)) w0t
      = (.ok none, logExc w0t) ∧
    optional_mlflow envAll
        (fun w => ((Except.error Exc.connectionError : Except Exc Unit), w)) w0t
      = (.ok none, logExc w0t) := by
  have h := c2_wrapped_errors_swallowed
    (fun w => ((Except.error Exc.connectionError : Except Exc Unit), w))
    envAll w0t w0t w0t Exc.connectionError rfl (Or.inl rfl)
  exact ⟨h.1 rfl, h.2 rfl⟩

/-- Claim C3: whenever the gate reports tracking disabled, each of the
eight optional_mlflow-wrapped forwarding functions returns None and makes
no backend call, leaving the whole observable world — trace, logs, files —
unchanged. -/
theorem c3_disabled_noop (env : Env) (beh : Except Exc Unit) (w : World)
    (key : String) (value : Val) (kv : List (String × Val))
    (step : Option Int) (path dir : String) (apath : Option String)
    (h : w.cache = some false) :
    set_tag env beh key value w = (.ok none, w) ∧
    set_tags env beh kv w = (.ok none, w) ∧
    log_param env beh key value w = (.ok none, w) ∧
    log_params env beh kv w = (.ok none, w) ∧
    log_metric env beh key value step w = (.ok none, w) ∧
    log_metrics env beh kv step w = (.ok none, w) ∧
    log_artifact env beh path apath w = (.ok none, w) ∧
    log_artifacts env beh dir apath w = (.ok none, w) := by
  have hu : use_mlflow env w = (false, w) := by simp [use_mlflow, h]
  refine ⟨?_, ?_, ?_, ?_, ?_, ?_, ?_, ?_⟩ <;>
    simp [set_tag, set_tags, log_param, log_params, log_metric, log_metrics,
      log_artifact, log_artifacts, optional_mlflow, hu]

/-- Witness for C3 at concrete inputs: with the flag cached as disabled,
all eight forwarders return None and leave the world untouched. -/
theorem c3_witness :
    set_tag envAll (.ok ()) "k" "v" w0f = (.ok none, w0f) ∧
    set_tags envAll (.ok ()) [("k", "v")] w0f = (.ok none, w0f) ∧
    log_param envAll (.ok ()) "k" "v" w0f = (.ok none, w0f) ∧
    log_params envAll (.ok ()) [("k", "v")] w0f = (.ok none, w0f) ∧
    log_metric envAll (.ok ()) "k" "v" (some 1) w0f = (.ok none, w0f) ∧
    log_metrics envAll (.ok ()) [("k", "v")] (some 1) w0f = (.ok none, w0f) ∧
    log_artifact envAll (.ok ()) "p" none w0f = (.ok none, w0f) ∧
    log_artifacts envAll (.ok ()) "d" none w0f = (.ok none, w0f) :=
  c3_disabled_noop envAll (.ok ()) w0f "k" "v" [("k", "v")] (some 1) "p" "d"
    none rfl

/-- Claim C7: with tracking enabled, active_run_id returns the current
run's identifier; with tracking enabled and no active run, it logs a
warning, starts a new run and returns that run's identifier; with
tracking disabled it returns the empty string. -/
theorem c7_active_run_id (env : Env) (rb : RunBackend) (w : World)
    (rid : String) :
    (w.cache = some true → rb.active_run = .ok (some rid) →
      active_run_id env rb w =
        (.ok (some rid), { w with trace := w.trace ++ [.active_run] })) ∧
    (w.cache = some true → rb.active_run = .ok none → rb.start_run = .ok rid →
      active_run_id env rb w =
        (.ok (some rid),
          { w with
              trace := w.trace ++ [.active_run] ++ [.start_run],
              logs := w.logs ++
                [(.warning,
                  "there is no active mlflow run. starting a new run ..")] })) ∧
    (w.cache = some false → active_run_id env rb w = (.ok (some ""), w)) := by
  have hu : ∀ b, w.cache = some b → use_mlflow env w = (b, w) := by
    intro b hb
    simp [use_mlflow, hb]
  refine ⟨?_, ?_, ?_⟩
  · intro hc ha
    simp [active_run_id, safe_mlflow, active_run_id_body, hu true hc,
      mlflowCall, ha]
  · intro hc ha hs
    simp [active_run_id, safe_mlflow, active_run_id_body, hu true hc,
      mlflowCall, ha, hs]
  · intro hc
    simp [active_run_id, safe_mlflow, active_run_id_body, hu false hc]

/-- Witness for C7 at concrete inputs: enabled with an active run "r1";
enabled with no active run and a started run "r1"; and disabled. -/
theorem c7_witness :
    active_run_id envAll ⟨.ok (some "r1"), .ok "r1"⟩ w0t =
      (.ok (some "r1"), { w0t with trace := w0t.trace ++ [.active_run] }) ∧
    active_run_id envAll ⟨.ok none, .ok "r1"⟩ w0t =
      (.ok (some "r1"),
        { w0t with
            trace := w0t.trace ++ [.active_run] ++ [.start_run],
            logs := w0t.logs ++
              [(.warning,
                "there is no active mlflow run. starting a new run ..")] }) ∧
    active_run_id envAll ⟨.ok (some "r1"), .ok "r1"⟩ w0f = (.ok (some ""), w0f) :=
  ⟨(c7_active_run_id envAll ⟨.ok (some "r1"), .ok "r1"⟩ w0t "r1").1 rfl rfl,
   (c7_active_run_id envAll ⟨.ok none, .ok "r1"⟩ w0t "r1").2.1 rfl rfl rfl,
   (c7_active_run_id envAll ⟨.ok (some "r1"), .ok "r1"⟩ w0f "r1").2.2 rfl⟩

/-- Claim C8: on every call of save_text_to_mlflow that reaches the upload
stage (tracking enabled and pyarrow present), the temporary directory is
removed on every exit path — successful upload, backend exception and
filesystem error alike — so the number of live temporary directories
after the call equals the number before it. -/
theorem c8_tempdir_cleanup (env : Env) (writeBeh upBeh : Except Exc Unit)
    (content filename : String) (w : World)
    (hc : w.cache = some true) (hp : env.pyarrowInstalled = true) :
    ((save_text_to_mlflow env writeBeh upBeh content filename w).2).liveTempDirs
      = w.liveTempDirs := by
  have hu : use_mlflow env w = (true, w) := by simp [use_mlflow, hc]
  rcases writeBeh with e | u
  · cases e <;>
      simp [save_text_to_mlflow, safe_mlflow, save_text_to_mlflow_body, hu,
        _is_pyarrow_installed, hp, withTempDir, writeFile, mlflowCall, logExc]
  · rcases upBeh with e | v
    · cases e <;>
        simp [save_text_to_mlflow, safe_mlflow, save_text_to_mlflow_body, hu,
          _is_pyarrow_installed, hp, withTempDir, writeFile, mlflowCall, logExc]
    · simp [save_text_to_mlflow, safe_mlflow, save_text_to_mlflow_body, hu,
        _is_pyarrow_installed, hp, withTempDir, writeFile, mlflowCall, logExc]

/-- Witness for C8 at a concrete input: a filesystem error during the
write still leaves the count of live temporary directories unchanged. -/
theorem c8_witness :
    ((save_text_to_mlflow envAll (.error .other) (.ok ()) "hello" "out.txt"
        w0t).2).liveTempDirs = w0t.liveTempDirs :=
  c8_tempdir_cleanup envAll (.error .other) (.ok ()) "hello" "out.txt" w0t
    rfl rfl

/-- Counterexample to Claim C9 as stated: with pyarrow absent but tracking
disabled (here force-disabled through the environment variable), the gate
check returns before the pyarrow check is reached, so no warning at all
is logged — the claim promises a warning on every call with pyarrow
absent. -/
theorem c9_counterexample :
    (save_text_to_mlflow envOff (.ok ()) (.ok ()) "hello" "out.txt" w0).2.logs
      = [] := rfl

/-- Claim C9 (amended): when save_text_to_mlflow is called with tracking
enabled and pyarrow not installed, it writes no file, performs no
artifact upload, logs exactly one warning, and returns without raising,
for every content and filename argument; when tracking is disabled it
returns without raising, writing, uploading, or logging the warning. -/
theorem c9_pyarrow_absent_noop (env : Env) (writeBeh upBeh : Except Exc Unit)
    (content filename : String) (w : World)
    (hc : w.cache = some true) (hp : env.pyarrowInstalled = false) :
    save_text_to_mlflow env writeBeh upBeh content filename w =
      (.ok (some ()),
        { w with logs := w.logs ++
          [(.warning, "Pyarrow is not installed. " ++ filename ++
            " artifact won\x27t be stored on HDFS")] }) := by
  have hu : use_mlflow env w = (true, w) := by simp [use_mlflow, hc]
  simp [save_text_to_mlflow, safe_mlflow, save_text_to_mlflow_body, hu,
    _is_pyarrow_installed, hp]

/-- Witness for C9 at a concrete input: tracking enabled, pyarrow absent —
the call returns None, leaves trace and file writes empty and logs the
warning. -/
theorem c9_witness :
    save_text_to_mlflow envNoArrow (.ok ()) (.ok ()) "hello" "out.txt" w0t =
      (.ok (some ()),
        { w0t with logs := w0t.logs ++
          [(.warning, "Pyarrow is not installed. " ++ "out.txt" ++
            " artifact won\x27t be stored on HDFS")] }) :=
  c9_pyarrow_absent_noop envNoArrow (.ok ()) (.ok ()) "hello" "out.txt" w0t
    rfl rfl

/-- Claim C10: although active_run_id is annotated to return a string,
when tracking is enabled and the backend raises ConnectionError or
MlflowException the safe_mlflow wrapper makes it return None rather than
the empty string; the empty-string sentinel arises only on the
tracking-disabled path (provided the backend never reports "" as a run
id). -/
theorem c10_active_run_id_none_on_error (env : Env) (rb : RunBackend)
    (w : World) (e : Exc)
    (he : e = .connectionError ∨ e = .mlflowException) :
    (w.cache = some true → rb.active_run = .error e →
      (active_run_id env rb w).1 = .ok none) ∧
    (w.cache = some true → rb.active_run = .ok none →
      rb.start_run = .error e → (active_run_id env rb w).1 = .ok none) ∧
    (w.cache = some false → (active_run_id env rb w).1 = .ok (some "")) ∧
    (w.cache = some true → rb.active_run ≠ .ok (some "") →
      rb.start_run ≠ .ok "" →
      (active_run_id env rb w).1 ≠ .ok (some "")) := by
  have hu : ∀ b, w.cache = some b → use_mlflow env w = (b, w) := by
    intro b hb
    simp [use_mlflow, hb]
  refine ⟨?_, ?_, ?_, ?_⟩
  · intro hc ha
    rcases he with h | h <;> subst h <;>
      simp [active_run_id, safe_mlflow, active_run_id_body, hu true hc,
        mlflowCall, ha]
  · intro hc ha hs
    rcases he with h | h <;> subst h <;>
      simp [active_run_id, safe_mlflow, active_run_id_body, hu true hc,
        mlflowCall, ha, hs]
  · intro hc
    simp [active_run_id, safe_mlflow, active_run_id_body, hu false hc]
  · intro hc ha hs
    cases har : rb.active_run with
    | error e2 =>
      cases e2 <;>
        simp [active_run_id, safe_mlflow, active_run_id_body, hu true hc,
          mlflowCall, har]
    | ok r =>
      cases r with
      | some rid =>
        have hrid : rid ≠ "" := by
          intro hq
          exact ha (by rw [har, hq])
        simp [active_run_id, safe_mlflow, active_run_id_body, hu true hc,
          mlflowCall, har, hrid]
      | none =>
        cases hst : rb.start_run with
        | error e2 =>
          cases e2 <;>
            simp [active_run_id, safe_mlflow, active_run_id_body, hu true hc,
              mlflowCall, har, hst]
        | ok rid2 =>
          have hrid : rid2 ≠ "" := by
            intro hq
            exact hs (by rw [hst, hq])
          simp [active_run_id, safe_mlflow, active_run_id_body, hu true hc,
            mlflowCall, har, hst, hrid]

/-- Witness for C10 at concrete inputs: a ConnectionError from the
backend yields None under the wrapper in both failing positions; the
disabled path yields ""; the enabled path with a nonempty run id never
yields "". -/
theorem c10_witness :
    (active_run_id envAll ⟨.error .connectionError, .ok "r1"⟩ w0t).1
      = .ok none ∧
    (active_run_id envAll ⟨.ok none, .error .connectionError⟩ w0t).1
      = .ok none ∧
    (active_run_id envAll ⟨.ok (some "r1"), .ok "r1"⟩ w0f).1
      = .ok (some "") ∧
    (active_run_id envAll ⟨.ok (some "r1"), .ok "r1"⟩ w0t).1
      ≠ .ok (some "") :=
  ⟨(c10_active_run_id_none_on_error envAll ⟨.error .connectionError, .ok "r1"⟩
      w0t .connectionError (Or.inl rfl)).1 rfl rfl,
   (c10_active_run_id_none_on_error envAll ⟨.ok none, .error .connectionError⟩
      w0t .connectionError (Or.inl rfl)).2.1 rfl rfl rfl,
   (c10_active_run_id_none_on_error envAll ⟨.ok (some "r1"), .ok "r1"⟩
      w0f .connectionError (Or.inl rfl)).2.2.1 rfl,
   (c10_active_run_id_none_on_error envAll ⟨.ok (some "r1"), .ok "r1"⟩
      w0t .connectionError (Or.inl rfl)).2.2.2 rfl (by simp) (by simp)⟩

end TfYarnMlflow
